import Mathlib

set_option linter.unusedVariables false

/-!
Shallow embedding of the point-of-sale application's checkout page, its
offline-aware data reader, and its sales-trend chart, translated from the
TypeScript source.  Remote effects (sale-row inserts, customer updates,
stock updates) are recorded as lists of issued writes; success or failure
of each remote sale insert is supplied by an oracle function, mirroring
the fact that the hosted database decides it.  JavaScript numbers are
modelled as `Int`, nullable values as `Option`, and thrown/caught
exceptions as explicit result values.
-/

/-- `type PaymentMethod = 'cash' | 'mpesa' | 'debt'` from the sales page. -/
inductive PaymentMethod where
  | cash
  | mpesa
  | debt
  deriving DecidableEq

/-- The product fields used by the sales page. -/
structure Product where
  id : String
  name : String
  category : String
  sellingPrice : Int
  costPrice : Int
  currentStock : Int
  deriving DecidableEq

/-- `CartItem = { ...product, quantity }`: a product together with a quantity. -/
structure CartItem extends Product where
  quantity : Int
  deriving DecidableEq

/-- The customer fields used by the sales page. -/
structure Customer where
  id : String
  name : String
  phone : String
  outstandingDebt : Int
  totalPurchases : Int
  lastPurchaseDate : Option String
  deriving DecidableEq

/-- The `saleData` object built once per cart line in `processOnlineSale` /
`processOfflineSale` (the payload of the remote insert, resp. the queued
offline record). -/
structure SaleData where
  user_id : String
  product_id : String
  product_name : String
  quantity : Int
  selling_price : Int
  cost_price : Int
  profit : Int
  total_amount : Int
  customer_id : Option String
  customer_name : Option String
  payment_method : PaymentMethod
  timestamp : String
  synced : Bool
  deriving DecidableEq

/-- The payload of one `updateCustomer(customer.id, {...})` call issued on the
online debt path. -/
structure CustomerUpdate where
  id : String
  outstandingDebt : Int
  totalPurchases : Int
  lastPurchaseDate : String
  deriving DecidableEq

/-- The component state touched by checkout: the cart, the selected customer,
the payment method, the loaded customers and the offline pending queue
(`createOfflineSale` appends to it; its length is the pending-operation
count shown in the header). -/
structure CheckoutState where
  cart : List CartItem
  selectedCustomerId : Option String
  paymentMethod : PaymentMethod
  customers : List Customer
  pendingQueue : List SaleData
  deriving DecidableEq

/-- Outcome of one `handleCheckout` invocation: silent early return on an
empty cart, the debt-without-customer validation toast, the success path,
or the catch-all failure path. -/
inductive CheckoutOutcome where
  | noCart
  | validationError
  | completed
  | failed
  deriving DecidableEq

/-- Everything observable from one `handleCheckout` run: the outcome, the new
component state, the remote writes issued (sale inserts that succeeded,
customer updates, stock updates), all sale records created (remote rows or
queued offline records), and the toasts shown. -/
structure CheckoutResult where
  outcome : CheckoutOutcome
  state : CheckoutState
  remoteSales : List SaleData
  customerUpdates : List CustomerUpdate
  stockWrites : List (String × Int)
  salesCreated : List SaleData
  toasts : List String
  deriving DecidableEq

/-- The destructive toast shown when paymentMethod is debt and no customer is
selected. -/
def toastCustomerRequired : String :=
  "Please select a customer for debt transactions."

/-- The toast shown from the catch block of `handleCheckout`. -/
def checkoutErrorToast : String :=
  "Failed to process sale. Please try again."

/-- The success toast; the description carries an offline suffix when the sale
was processed offline. -/
def successToast (isOnline : Bool) : String :=
  if isOnline then "Transaction processed successfully."
  else "Transaction processed successfully (offline)."

/-- `addToCart` from the sales page.  `confirmAdd` is the user's answer to the
`window.confirm` dialog, which is only consulted when `currentStock === 0`.
If the product is already in the cart its line's quantity is incremented,
otherwise a new line with quantity 1 is appended. -/
def addToCart (confirmAdd : Bool) (cart : List CartItem) (p : Product) : List CartItem :=
  if p.currentStock = 0 ∧ confirmAdd = false then cart
  else
    match cart.find? (fun item => item.id == p.id) with
    | some _ =>
        cart.map (fun item =>
          if item.id = p.id then { item with quantity := item.quantity + 1 } else item)
    | none => cart ++ [{ toProduct := p, quantity := 1 }]

/-- `removeFromCart`: drop every line whose id equals the given product id. -/
def removeFromCart (cart : List CartItem) (productId : String) : List CartItem :=
  cart.filter (fun item => item.id != productId)

/-- `updateQuantity`: a new quantity of at most 0 removes the line, otherwise
the matching line's quantity is set to the new quantity. -/
def updateQuantity (cart : List CartItem) (productId : String) (newQuantity : Int) :
    List CartItem :=
  if newQuantity ≤ 0 then removeFromCart cart productId
  else
    cart.map (fun item =>
      if item.id = productId then { item with quantity := newQuantity } else item)

/-- The cart invariant: product ids are pairwise distinct and every line has a
positive quantity. -/
def CartInv (cart : List CartItem) : Prop :=
  (cart.map (fun item => item.id)).Nodup ∧ ∀ item ∈ cart, 0 < item.quantity

/-- `customer?.name || null`: the customer name field of a sale record; an
absent customer or an empty name yields null. -/
def customerNameField (customer : Option Customer) : Option String :=
  match customer with
  | some c => if c.name = "" then none else some c.name
  | none => none

/-- The `saleData` object built for one cart line (identical field
computations on the online and offline paths; only `synced` differs). -/
def mkSaleData (userId : String) (item : CartItem) (customerId : Option String)
    (customer : Option Customer) (pm : PaymentMethod) (ts : String) (synced : Bool) :
    SaleData :=
  { user_id := userId
    product_id := item.id
    product_name := item.name
    quantity := item.quantity
    selling_price := item.sellingPrice
    cost_price := item.costPrice
    profit := (item.sellingPrice - item.costPrice) * item.quantity
    total_amount := item.sellingPrice * item.quantity
    customer_id := customerId
    customer_name := customerNameField customer
    payment_method := pm
    timestamp := ts
    synced := synced }

/-- `Math.max(0, item.currentStock - item.quantity)`: the value written by the
per-line stock update of `processOnlineSale`. -/
def stockDecrement (currentStock quantity : Int) : Int :=
  max 0 (currentStock - quantity)

/-- The payload of the `updateCustomer` call for one cart line on the online
debt path; the debt and purchase totals are computed from the customer
snapshot captured at the start of checkout. -/
def debtUpdate (c : Customer) (item : CartItem) (ts : String) : CustomerUpdate :=
  { id := c.id
    outstandingDebt := c.outstandingDebt + item.sellingPrice * item.quantity
    totalPurchases := c.totalPurchases + item.sellingPrice * item.quantity
    lastPurchaseDate := ts }

/-- The customer updates issued for one cart line: one update when
`paymentMethod === 'debt' && customer`, none otherwise. -/
def debtUpdateFor (customer : Option Customer) (pm : PaymentMethod) (item : CartItem)
    (ts : String) : List CustomerUpdate :=
  match customer with
  | some c => if pm = PaymentMethod.debt then [debtUpdate c item ts] else []
  | none => []

/-- The observable effects of the `processOnlineSale` loop: sale rows inserted
into the remote `sales` table, customer updates, attempted stock writes, and
whether the loop ran to completion (`ok = false` means a sale insert was
rejected and the surrounding `throw` aborted the remaining items). -/
structure OnlineOutcome where
  salesWritten : List SaleData
  customerUpdates : List CustomerUpdate
  stockWrites : List (String × Int)
  ok : Bool
  deriving DecidableEq

/-- The `for (const item of cart)` loop of `processOnlineSale`.  `insertOk n`
tells whether the remote insert of the n-th processed item succeeds; a
rejected insert throws, so nothing later runs.  Stock-update failures are
only logged, so the attempted write is recorded unconditionally. -/
def processOnlineLoop (insertOk : Nat → Bool) (userId : String)
    (customerId : Option String) (customer : Option Customer) (pm : PaymentMethod)
    (ts : String) : List CartItem → OnlineOutcome
  | [] => { salesWritten := [], customerUpdates := [], stockWrites := [], ok := true }
  | item :: rest =>
    if insertOk 0 then
      let r := processOnlineLoop (fun n => insertOk (n + 1)) userId customerId customer
        pm ts rest
      { salesWritten := mkSaleData userId item customerId customer pm ts true :: r.salesWritten
        customerUpdates := debtUpdateFor customer pm item ts ++ r.customerUpdates
        stockWrites := (item.id, stockDecrement item.currentStock item.quantity) :: r.stockWrites
        ok := r.ok }
    else
      { salesWritten := [], customerUpdates := [], stockWrites := [], ok := false }

/-- The `for (const item of cart)` loop of `processOfflineSale`: one record
with `synced = false` handed to `createOfflineSale` per cart line; it always
succeeds locally. -/
def processOfflineLoop (userId : String) (customerId : Option String)
    (customer : Option Customer) (pm : PaymentMethod) (ts : String)
    (cart : List CartItem) : List SaleData :=
  cart.map (fun item => mkSaleData userId item customerId customer pm ts false)

/-- `selectedCustomerId ? customers.find(c => c.id === selectedCustomerId) || null : null`. -/
def lookupCustomer (customers : List Customer) (selectedCustomerId : Option String) :
    Option Customer :=
  match selectedCustomerId with
  | some cid => customers.find? (fun c => c.id == cid)
  | none => none

/-- `handleCheckout` from the sales page.  `isOnline` is the connectivity
state sampled once at the start, `insertOk` the remote-insert oracle,
`userId` the authenticated user (the process functions throw without one),
and `ts` the timestamp string used for the records created in this run. -/
def handleCheckout (isOnline : Bool) (insertOk : Nat → Bool) (userId : Option String)
    (ts : String) (st : CheckoutState) : CheckoutResult :=
  if st.cart = [] then
    { outcome := CheckoutOutcome.noCart, state := st, remoteSales := [],
      customerUpdates := [], stockWrites := [], salesCreated := [], toasts := [] }
  else if st.paymentMethod = PaymentMethod.debt ∧ st.selectedCustomerId = none then
    { outcome := CheckoutOutcome.validationError, state := st, remoteSales := [],
      customerUpdates := [], stockWrites := [], salesCreated := [],
      toasts := [toastCustomerRequired] }
  else
    let customer := lookupCustomer st.customers st.selectedCustomerId
    match userId with
    | none =>
      { outcome := CheckoutOutcome.failed, state := st, remoteSales := [],
        customerUpdates := [], stockWrites := [], salesCreated := [],
        toasts := [checkoutErrorToast] }
    | some uid =>
      if isOnline then
        let r := processOnlineLoop insertOk uid st.selectedCustomerId customer
          st.paymentMethod ts st.cart
        if r.ok then
          { outcome := CheckoutOutcome.completed,
            state := { st with
              cart := []
              selectedCustomerId := none
              paymentMethod := PaymentMethod.cash },
            remoteSales := r.salesWritten, customerUpdates := r.customerUpdates,
            stockWrites := r.stockWrites, salesCreated := r.salesWritten,
            toasts := [successToast true] }
        else
          { outcome := CheckoutOutcome.failed, state := st,
            remoteSales := r.salesWritten, customerUpdates := r.customerUpdates,
            stockWrites := r.stockWrites, salesCreated := r.salesWritten,
            toasts := [checkoutErrorToast] }
      else
        let queued := processOfflineLoop uid st.selectedCustomerId customer
          st.paymentMethod ts st.cart
        { outcome := CheckoutOutcome.completed,
          state := { st with
            cart := []
            selectedCustomerId := none
            paymentMethod := PaymentMethod.cash
            pendingQueue := st.pendingQueue ++ queued },
          remoteSales := [], customerUpdates := [], stockWrites := [],
          salesCreated := queued, toasts := [successToast false] }

/-- Sequentially applying the issued customer updates to a customer record:
`updateCustomer(id, fields)` sets the given fields to the given absolute
values on the remote `customers` row. -/
def applyCustomerUpdate (c : Customer) (u : CustomerUpdate) : Customer :=
  { c with
    outstandingDebt := u.outstandingDebt
    totalPurchases := u.totalPurchases
    lastPurchaseDate := some u.lastPurchaseDate }

/-- Apply a list of customer updates in order. -/
def applyCustomerUpdates (c : Customer) (us : List CustomerUpdate) : Customer :=
  us.foldl applyCustomerUpdate c

/-!
The offline-aware reader (`useOfflineAwareData.fetchData`).  A row is a list
of named integer fields; a filter value of `none` models a null/undefined
filter entry.  The remote query and the cache read are supplied as oracles:
`Except` models a thrown error, the inner `Option` a null result.
-/

/-- A cached/remote row: named integer fields. -/
abbrev Row := List (String × Int)

/-- `item[key] === value` for a non-null filter value: a missing field is
undefined and never equal to it. -/
def rowMatches (r : Row) (key : String) (v : Int) : Bool :=
  match r.find? (fun f => f.1 == key) with
  | some f => f.2 == v
  | none => false

/-- The client-side filter loop: each filter whose value is neither undefined
nor null keeps only the rows whose field equals it; null/undefined filter
values are skipped. -/
def applyFilters (filters : List (String × Option Int)) (rows : List Row) : List Row :=
  filters.foldl
    (fun acc kv =>
      match kv.2 with
      | some v => acc.filter (fun r => rowMatches r kv.1 v)
      | none => acc)
    rows

/-- The environment one `fetchData` run sees: the connectivity flag, the
outcome of the remote query (already carrying the server-side filters), and
the outcome of `getOfflineData` for this table. -/
structure ReaderEnv where
  isOnline : Bool
  remote : Except String (Option (List Row))
  cache : Except String (Option (List Row))
  storeOk : Bool
  storeErr : String

/-- The observable result of one `fetchData` run: the rows left in `data`,
the surfaced error, the snapshot written to the offline cache (if any), and
whether a network query was attempted. -/
structure ReaderResult where
  data : List Row
  error : Option String
  storedCache : Option (List Row)
  networkAttempted : Bool
  deriving DecidableEq

/-- The shared catch block of `fetchData`: surface the error message, then
try `getOfflineData` once more and keep the previous data when it misses or
throws.  The fallback does not re-apply the filters. -/
def fetchFallback (env : ReaderEnv) (e : String) (prev : List Row)
    (attempted : Bool) : ReaderResult :=
  match env.cache with
  | Except.ok (some cached) =>
      { data := cached, error := some e, storedCache := none,
        networkAttempted := attempted }
  | Except.ok none =>
      { data := prev, error := some e, storedCache := none,
        networkAttempted := attempted }
  | Except.error _ =>
      { data := prev, error := some e, storedCache := none,
        networkAttempted := attempted }

/-- `fetchData`: online it queries the remote table (filters applied by the
query), writes the fresh rows into the offline cache and returns them; on a
remote (or cache-store) error it falls back to the cached snapshot.  Offline
it reads the cache, treats a miss as an empty list, and filters client-side;
no network query is attempted. -/
def fetchData (env : ReaderEnv) (filters : List (String × Option Int))
    (prev : List Row) : ReaderResult :=
  if env.isOnline then
    match env.remote with
    | Except.ok (some fresh) =>
        if env.storeOk then
          { data := fresh, error := none, storedCache := some fresh,
            networkAttempted := true }
        else fetchFallback env env.storeErr prev true
    | Except.ok none =>
        { data := prev, error := none, storedCache := none, networkAttempted := true }
    | Except.error e => fetchFallback env e prev true
  else
    match env.cache with
    | Except.ok cachedOpt =>
        { data := applyFilters filters (cachedOpt.getD []), error := none,
          storedCache := none, networkAttempted := false }
    | Except.error e => fetchFallback env e prev false

/-!
The sales-trend chart (`EnhancedSalesTrendChart`).  A sale carries its total,
the optional `paymentDetails.discountAmount`, and its timestamp in epoch
milliseconds.  The calendar decomposition of a timestamp (`getFullYear`,
`getMonth`, `getDate`, `getHours` of the runtime's `Date`) is an external
dependency and enters as a function parameter.  A bucket key `y-mm-dd-hh`
(zero-padded, compared with `localeCompare`) is encoded as the number
`((y*100+m)*100+d)*100+h`, whose numeric order agrees with the string order
for four-digit years.  The JavaScript `Map` is an insertion-ordered
association list.
-/

/-- A sale as consumed by the chart. -/
structure Sale where
  total : Int
  discountAmount : Option Int
  timestamp : Int
  deriving DecidableEq

/-- The calendar decomposition of a timestamp. -/
structure CalTime where
  year : Nat
  month : Nat
  day : Nat
  hour : Nat
  deriving DecidableEq

/-- Encoding of the hourly bucket key `y-mm-dd-hh`. -/
def hourKey (c : CalTime) : Nat :=
  ((c.year * 100 + c.month) * 100 + c.day) * 100 + c.hour

/-- Encoding of the daily bucket key `y-mm-dd`. -/
def dayKey (c : CalTime) : Nat :=
  (c.year * 100 + c.month) * 100 + c.day

/-- Encoding of the monthly bucket key `y-mm`. -/
def monthKey (c : CalTime) : Nat :=
  c.year * 100 + c.month

/-- `Map.get(key) || 0`. -/
def mapGetD (m : List (Nat × Int)) (k : Nat) : Int :=
  match m.find? (fun p => p.1 == k) with
  | some p => p.2
  | none => 0

/-- `Map.set(key, v)`: update the entry in place when the key is present,
append it otherwise (JavaScript `Map` keeps insertion order). -/
def mapSet (m : List (Nat × Int)) (k : Nat) (v : Int) : List (Nat × Int) :=
  if m.any (fun p => p.1 == k) then
    m.map (fun p => if p.1 = k then (k, v) else p)
  else m ++ [(k, v)]

/-- `Math.max(0, sale.total - (sale.paymentDetails?.discountAmount || 0))`. -/
def saleContribution (s : Sale) : Int :=
  max 0 (s.total - s.discountAmount.getD 0)

/-- `dataMap.set(key, (dataMap.get(key) || 0) + c)`. -/
def chartEntryAdd (m : List (Nat × Int)) (k : Nat) (c : Int) : List (Nat × Int) :=
  mapSet m k (mapGetD m k + c)

/-- The aggregation loop over the sales: every in-range sale adds its
contribution to the bucket of its key. -/
def fillSales (keyOf : Sale → Nat) (inRange : Sale → Bool) (m : List (Nat × Int))
    (sales : List Sale) : List (Nat × Int) :=
  sales.foldl
    (fun acc s => if inRange s then chartEntryAdd acc (keyOf s) (saleContribution s) else acc)
    m

/-- The grid-initialisation loop: every listed key gets the bucket value 0. -/
def initMap (keys : List Nat) : List (Nat × Int) :=
  keys.foldl (fun m k => mapSet m k 0) []

/-- Comparison used by the final `.sort(([a],[b]) => a.localeCompare(b))`:
entries are ordered by bucket key. -/
def keyLE (a b : Nat × Int) : Prop := a.1 ≤ b.1

instance : DecidableRel keyLE := fun a b => Nat.decLe a.1 b.1

instance : IsTotal (Nat × Int) keyLE := ⟨fun a b => Nat.le_total a.1 b.1⟩

instance : IsTrans (Nat × Int) keyLE := ⟨fun _ _ _ => Nat.le_trans⟩

/-- The final sort of the map entries by bucket key (`Array.prototype.sort`
is a stable sort; insertion sort realises it). -/
def sortEntries (m : List (Nat × Int)) : List (Nat × Int) :=
  List.insertionSort keyLE m

/-- The common shape of the three `chartData` branches: initialise the grid,
aggregate the in-range sales, sort by bucket key. -/
def buildChart (initKeys : List Nat) (keyOf : Sale → Nat) (inRange : Sale → Bool)
    (sales : List Sale) : List (Nat × Int) :=
  sortEntries (fillSales keyOf inRange (initMap initKeys) sales)

/-- The 48 keys initialised by the hourly branch, for `i` from 47 down
to 0: the hour of `now - i*3600000`. -/
def hourlyInitKeys (cal : Int → CalTime) (now : Int) : List Nat :=
  (List.range 48).reverse.map (fun i => hourKey (cal (now - (i : Int) * 3600000)))

/-- The hourly `chartData` branch: buckets for the last 48 hours; a sale is
aggregated when its timestamp is at least `now - 48h`. -/
def hourlyChart (cal : Int → CalTime) (now : Int) (sales : List Sale) :
    List (Nat × Int) :=
  buildChart (hourlyInitKeys cal now) (fun s => hourKey (cal s.timestamp))
    (fun s => decide (now - 48 * 3600000 ≤ s.timestamp)) sales

/-- `Math.min` over the sale timestamps (`earliestSaleDate`), when any. -/
def earliestMillis (sales : List Sale) : Option Int :=
  match sales.map (fun s => s.timestamp) with
  | [] => none
  | t :: ts => some (ts.foldl min t)

/-- The daily branch's `startDate`: the day start of the earliest sale,
capped at 365 days before `now`; `dayFloor` is the calendar day-start
(`new Date(y, m, d)` of a timestamp's components). -/
def dailyStart (dayFloor : Int → Int) (now : Int) (sales : List Sale) : Int :=
  let capStart := now - 365 * 24 * 3600000
  match earliestMillis sales with
  | some e => max (dayFloor e) capStart
  | none => capStart

/-- The grid-generation loop of the daily/monthly branches: starting at `d`,
emit the key of each step while `d ≤ stop`, advancing with the calendar
successor `next`; `fuel` bounds the iteration (the JavaScript loop
terminates because `next` strictly increases the date). -/
def genGridKeys (next : Int → Int) (keyOf : Int → Nat) :
    Nat → Int → Int → List Nat
  | 0, _, _ => []
  | fuel + 1, d, stop =>
      if d ≤ stop then keyOf d :: genGridKeys next keyOf fuel (next d) stop else []

/-- The daily `chartData` branch.  `nextDay` is the calendar-day successor
(`d.setDate(d.getDate() + 1)`), `fuel` a bound on the number of grid days. -/
def dailyChart (cal : Int → CalTime) (dayFloor nextDay : Int → Int) (fuel : Nat)
    (now : Int) (sales : List Sale) : List (Nat × Int) :=
  let start := dailyStart dayFloor now sales
  buildChart (genGridKeys nextDay (fun t => dayKey (cal t)) fuel start now)
    (fun s => dayKey (cal s.timestamp))
    (fun s => decide (start ≤ s.timestamp ∧ s.timestamp ≤ now)) sales

/-- The monthly branch's `startMonth`: the month start of the earliest sale,
capped at `capStartMonth` (the first day of the month 35 months before
`now`); `monthFloor` is the calendar month-start of a timestamp. -/
def monthlyStart (monthFloor : Int → Int) (capStartMonth : Int) (sales : List Sale) :
    Int :=
  match earliestMillis sales with
  | some e => max (monthFloor e) capStartMonth
  | none => capStartMonth

/-- The monthly `chartData` branch.  `endMonth` is the first day of the
current month, `nextMonth` the calendar-month successor. -/
def monthlyChart (cal : Int → CalTime) (monthFloor : Int → Int)
    (capStartMonth endMonth : Int) (nextMonth : Int → Int) (fuel : Nat)
    (now : Int) (sales : List Sale) : List (Nat × Int) :=
  let start := monthlyStart monthFloor capStartMonth sales
  buildChart (genGridKeys nextMonth (fun t => monthKey (cal t)) fuel start endMonth)
    (fun s => monthKey (cal s.timestamp))
    (fun s => decide (start ≤ s.timestamp ∧ s.timestamp ≤ now)) sales

/-- `chartData.reduce((sum, item) => sum + item.revenue, 0)`. -/
def totalRevenue (chart : List (Nat × Int)) : Int :=
  chart.foldl (fun sum it => sum + it.2) 0

/-- The sum of the bucket values of a map. -/
def mapSum (m : List (Nat × Int)) : Int :=
  (m.map (fun p => p.2)).sum

/-- The sum of the contributions of the sales selected by `inRange`. -/
def inRangeSum (inRange : Sale → Bool) (sales : List Sale) : Int :=
  ((sales.filter inRange).map saleContribution).sum

/-- The keys of a bucket map are pairwise distinct. -/
def keysNodup (m : List (Nat × Int)) : Prop :=
  (m.map (fun p => p.1)).Nodup

/-! Concrete fixtures used to instantiate the theorems below. -/

/-- A sample in-stock product. -/
def sampleProduct1 : Product :=
  { id := "p1", name := "Soap", category := "Household", sellingPrice := 100,
    costPrice := 60, currentStock := 10 }

/-- A second sample product. -/
def sampleProduct2 : Product :=
  { id := "p2", name := "Rice", category := "Food", sellingPrice := 200,
    costPrice := 150, currentStock := 5 }

/-- A sample product that is out of stock. -/
def sampleProductOut : Product :=
  { id := "p3", name := "Sugar", category := "Food", sellingPrice := 50,
    costPrice := 30, currentStock := 0 }

/-- A cart line of two units of the first sample product. -/
def sampleItem1 : CartItem := { toProduct := sampleProduct1, quantity := 2 }

/-- A cart line of one unit of the second sample product. -/
def sampleItem2 : CartItem := { toProduct := sampleProduct2, quantity := 1 }

/-- A sample customer with no outstanding debt. -/
def sampleCustomer : Customer :=
  { id := "c1", name := "Alice", phone := "0700000000", outstandingDebt := 0,
    totalPurchases := 0, lastPurchaseDate := none }

/-- A two-line cash checkout state. -/
def sampleStateCash : CheckoutState :=
  { cart := [sampleItem1, sampleItem2], selectedCustomerId := none,
    paymentMethod := PaymentMethod.cash, customers := [sampleCustomer],
    pendingQueue := [] }

/-- A two-line debt checkout state with a selected customer. -/
def sampleStateDebt : CheckoutState :=
  { cart := [sampleItem1, sampleItem2], selectedCustomerId := some "c1",
    paymentMethod := PaymentMethod.debt, customers := [sampleCustomer],
    pendingQueue := [] }

/-- A debt checkout state with no selected customer. -/
def sampleStateDebtNoCust : CheckoutState :=
  { cart := [sampleItem1], selectedCustomerId := none,
    paymentMethod := PaymentMethod.debt, customers := [sampleCustomer],
    pendingQueue := [] }

/-- A cached row matching the sample filter. -/
def sampleRowMatch : Row := [("user_id", 1), ("qty", 5)]

/-- A cached row not matching the sample filter. -/
def sampleRowNoMatch : Row := [("user_id", 2), ("qty", 7)]

/-- A filter set with one active equality filter and one null filter. -/
def sampleFilters : List (String × Option Int) :=
  [("user_id", some 1), ("category", none)]

/-- A sample cached snapshot. -/
def sampleCacheRows : List Row := [sampleRowMatch, sampleRowNoMatch]

/-- A reader environment that is offline with a populated cache. -/
def sampleReaderEnvOffline : ReaderEnv :=
  { isOnline := false, remote := Except.ok none,
    cache := Except.ok (some sampleCacheRows), storeOk := true,
    storeErr := "store failed" }

/-- A reader environment that is online with a failing remote query and a
cached row that does not match the sample filter. -/
def sampleReaderEnvFail : ReaderEnv :=
  { isOnline := true, remote := Except.error "boom",
    cache := Except.ok (some [sampleRowNoMatch]), storeOk := true,
    storeErr := "store failed" }

/-- A concrete calendar decomposition used to instantiate the chart theorems:
hour of day from the epoch-hour count, a fixed date otherwise. -/
def cexCal : Int → CalTime :=
  fun t => { year := 0, month := 0, day := 0, hour := ((t / 3600000) % 24).toNat }

/-- A sale at the epoch (100 hours before the chart's reference time), with a
positive total and no discount. -/
def cexSale : Sale := { total := 5, discountAmount := none, timestamp := 0 }

/-!  Theorems.  -/

theorem zipMapSelf {α β : Type} (f : α → β) :
    ∀ l : List α, (l.map f).zip l = l.map (fun x => (f x, x))
  | [] => rfl
  | x :: xs => by simp [zipMapSelf f xs]

theorem processOnlineLoop_ok_salesWritten (userId : String) (customerId : Option String)
    (customer : Option Customer) (pm : PaymentMethod) (ts : String) :
    ∀ (cart : List CartItem) (insertOk : Nat → Bool),
      (processOnlineLoop insertOk userId customerId customer pm ts cart).ok = true →
      (processOnlineLoop insertOk userId customerId customer pm ts cart).salesWritten =
        cart.map (fun item => mkSaleData userId item customerId customer pm ts true)
  | [], _, _ => rfl
  | item :: rest, insertOk, h => by
    by_cases h0 : insertOk 0 = true
    · simp only [processOnlineLoop, h0, if_true, List.map_cons] at h ⊢
      exact congrArg _ (processOnlineLoop_ok_salesWritten userId customerId customer
        pm ts rest (fun n => insertOk (n + 1)) h)
    · simp [processOnlineLoop, h0] at h

theorem processOnlineLoop_fail (userId : String) (customerId : Option String)
    (customer : Option Customer) (pm : PaymentMethod) (ts : String) :
    ∀ (cart : List CartItem) (insertOk : Nat → Bool) (k : Nat), k < cart.length →
      (∀ j, j < k → insertOk j = true) → insertOk k = false →
      (processOnlineLoop insertOk userId customerId customer pm ts cart).salesWritten =
        (cart.take k).map (fun item => mkSaleData userId item customerId customer pm ts true) ∧
      (processOnlineLoop insertOk userId customerId customer pm ts cart).ok = false
  | [], _, k, hk, _, _ => absurd hk (by simp)
  | item :: rest, insertOk, 0, _, _, hfail => by
    simp only [processOnlineLoop, hfail, if_false, List.take_zero, List.map_nil]
    exact ⟨rfl, rfl⟩
  | item :: rest, insertOk, k + 1, hk, hpre, hfail => by
    have h0 : insertOk 0 = true := hpre 0 (Nat.succ_pos k)
    have ih := processOnlineLoop_fail userId customerId customer pm ts rest
      (fun n => insertOk (n + 1)) k (Nat.lt_of_succ_lt_succ (by simpa using hk))
      (fun j hj => hpre (j + 1) (Nat.succ_lt_succ hj)) hfail
    simp only [processOnlineLoop, h0, if_true, List.take_succ_cons, List.map_cons]
    exact ⟨congrArg _ ih.1, ih.2⟩

theorem handleCheckout_completed_salesCreated (isOnline : Bool) (insertOk : Nat → Bool)
    (userId : Option String) (ts : String) (st : CheckoutState)
    (hdone : (handleCheckout isOnline insertOk userId ts st).outcome =
      CheckoutOutcome.completed) :
    ∃ uid synced, userId = some uid ∧
      (handleCheckout isOnline insertOk userId ts st).salesCreated =
        st.cart.map (fun item => mkSaleData uid item st.selectedCustomerId
          (lookupCustomer st.customers st.selectedCustomerId) st.paymentMethod ts synced) := by
  by_cases h1 : st.cart = []
  · simp [handleCheckout, h1] at hdone
  by_cases h2 : st.paymentMethod = PaymentMethod.debt ∧ st.selectedCustomerId = none
  · simp [handleCheckout, h1, h2] at hdone
  cases userId with
  | none => simp [handleCheckout, h1, h2] at hdone
  | some uid =>
    cases isOnline with
    | false =>
      refine ⟨uid, false, rfl, ?_⟩
      simp [handleCheckout, h1, h2, processOfflineLoop]
    | true =>
      by_cases hok : (processOnlineLoop insertOk uid st.selectedCustomerId
          (lookupCustomer st.customers st.selectedCustomerId) st.paymentMethod ts
          st.cart).ok = true
      · refine ⟨uid, true, rfl, ?_⟩
        simp only [handleCheckout, h1, h2, if_false, hok, if_true, ite_false, ite_true]
        exact processOnlineLoop_ok_salesWritten uid st.selectedCustomerId
          (lookupCustomer st.customers st.selectedCustomerId) st.paymentMethod ts
          st.cart insertOk hok
      · simp [handleCheckout, h1, h2, hok] at hdone

/-- C1: for every non-empty cart and payment method other than debt, a
checkout that completes creates exactly one sale record per cart line, and
every created record satisfies totalAmount = sellingPrice * quantity and
profit = (sellingPrice - costPrice) * quantity, with the quantity taken from
its cart line. -/
theorem C1_one_record_per_line (isOnline : Bool) (insertOk : Nat → Bool)
    (userId : Option String) (ts : String) (st : CheckoutState)
    (hcart : st.cart ≠ []) (hpm : st.paymentMethod ≠ PaymentMethod.debt)
    (hdone : (handleCheckout isOnline insertOk userId ts st).outcome =
      CheckoutOutcome.completed) :
    (handleCheckout isOnline insertOk userId ts st).salesCreated.length = st.cart.length ∧
    ∀ p ∈ (handleCheckout isOnline insertOk userId ts st).salesCreated.zip st.cart,
      p.1.total_amount = p.2.sellingPrice * p.2.quantity ∧
      p.1.profit = (p.2.sellingPrice - p.2.costPrice) * p.2.quantity ∧
      p.1.quantity = p.2.quantity := by
  obtain ⟨uid, synced, -, hmap⟩ :=
    handleCheckout_completed_salesCreated isOnline insertOk userId ts st hdone
  rw [hmap]
  constructor
  · exact List.length_map _ _
  · rw [zipMapSelf]
    intro p hp
    obtain ⟨x, -, rfl⟩ := List.mem_map.mp hp
    exact ⟨rfl, rfl, rfl⟩

/-- Witness for C1 at a concrete two-line cash cart checked out online with
every insert succeeding. -/
theorem C1_witness :
    sampleStateCash.cart ≠ [] ∧
    sampleStateCash.paymentMethod ≠ PaymentMethod.debt ∧
    (handleCheckout true (fun _ => true) (some "u1") "t0" sampleStateCash).outcome =
      CheckoutOutcome.completed ∧
    ((handleCheckout true (fun _ => true) (some "u1") "t0"
        sampleStateCash).salesCreated.length = sampleStateCash.cart.length ∧
      ∀ p ∈ (handleCheckout true (fun _ => true) (some "u1") "t0"
          sampleStateCash).salesCreated.zip sampleStateCash.cart,
        p.1.total_amount = p.2.sellingPrice * p.2.quantity ∧
        p.1.profit = (p.2.sellingPrice - p.2.costPrice) * p.2.quantity ∧
        p.1.quantity = p.2.quantity) :=
  ⟨by decide, by decide, by decide,
    C1_one_record_per_line true (fun _ => true) (some "u1") "t0" sampleStateCash
      (by decide) (by decide) (by decide)⟩

/-- C2: a checkout on a non-empty cart with payment method debt and no
selected customer creates no sale record, surfaces the validation toast, and
leaves the entire checkout state unchanged. -/
theorem C2_debt_without_customer_blocks (isOnline : Bool) (insertOk : Nat → Bool)
    (userId : Option String) (ts : String) (st : CheckoutState)
    (hcart : st.cart ≠ []) (hpm : st.paymentMethod = PaymentMethod.debt)
    (hcid : st.selectedCustomerId = none) :
    handleCheckout isOnline insertOk userId ts st =
      { outcome := CheckoutOutcome.validationError, state := st, remoteSales := [],
        customerUpdates := [], stockWrites := [], salesCreated := [],
        toasts := [toastCustomerRequired] } := by
  simp [handleCheckout, hcart, hpm, hcid]

/-- Witness for C2 at a concrete one-line debt cart with no customer
selected. -/
theorem C2_witness :
    sampleStateDebtNoCust.cart ≠ [] ∧
    handleCheckout true (fun _ => true) (some "u1") "t0" sampleStateDebtNoCust =
      { outcome := CheckoutOutcome.validationError, state := sampleStateDebtNoCust,
        remoteSales := [], customerUpdates := [], stockWrites := [],
        salesCreated := [], toasts := [toastCustomerRequired] } :=
  ⟨by decide,
    C2_debt_without_customer_blocks true (fun _ => true) (some "u1") "t0"
      sampleStateDebtNoCust (by decide) (by decide) (by decide)⟩

/-- C3: an offline checkout of a non-empty cart (with the debt validation
passing and an authenticated user) completes, creates one record with
synced = false per cart line, appends exactly those records to the pending
queue (so the pending-operation count grows by the cart length), and issues
no remote sale insert, customer update or stock write. -/
theorem C3_offline_checkout_queues (insertOk : Nat → Bool) (uid : String) (ts : String)
    (st : CheckoutState) (hcart : st.cart ≠ [])
    (hval : ¬(st.paymentMethod = PaymentMethod.debt ∧ st.selectedCustomerId = none)) :
    (handleCheckout false insertOk (some uid) ts st).outcome = CheckoutOutcome.completed ∧
    (handleCheckout false insertOk (some uid) ts st).salesCreated.length = st.cart.length ∧
    (∀ s ∈ (handleCheckout false insertOk (some uid) ts st).salesCreated,
      s.synced = false) ∧
    (handleCheckout false insertOk (some uid) ts st).state.pendingQueue =
      st.pendingQueue ++ (handleCheckout false insertOk (some uid) ts st).salesCreated ∧
    (handleCheckout false insertOk (some uid) ts st).state.pendingQueue.length =
      st.pendingQueue.length + st.cart.length ∧
    (handleCheckout false insertOk (some uid) ts st).remoteSales = [] ∧
    (handleCheckout false insertOk (some uid) ts st).customerUpdates = [] ∧
    (handleCheckout false insertOk (some uid) ts st).stockWrites = [] := by
  simp [handleCheckout, hcart, hval, processOfflineLoop, mkSaleData]

/-- Witness for C3 at a concrete two-line cash cart checked out offline. -/
theorem C3_witness :
    sampleStateCash.cart ≠ [] ∧
    ((handleCheckout false (fun _ => true) (some "u1") "t0" sampleStateCash).outcome =
        CheckoutOutcome.completed ∧
      (handleCheckout false (fun _ => true) (some "u1") "t0"
          sampleStateCash).salesCreated.length = sampleStateCash.cart.length ∧
      (∀ s ∈ (handleCheckout false (fun _ => true) (some "u1") "t0"
          sampleStateCash).salesCreated, s.synced = false) ∧
      (handleCheckout false (fun _ => true) (some "u1") "t0"
          sampleStateCash).state.pendingQueue =
        sampleStateCash.pendingQueue ++
          (handleCheckout false (fun _ => true) (some "u1") "t0"
            sampleStateCash).salesCreated ∧
      (handleCheckout false (fun _ => true) (some "u1") "t0"
          sampleStateCash).state.pendingQueue.length =
        sampleStateCash.pendingQueue.length + sampleStateCash.cart.length ∧
      (handleCheckout false (fun _ => true) (some "u1") "t0"
          sampleStateCash).remoteSales = [] ∧
      (handleCheckout false (fun _ => true) (some "u1") "t0"
          sampleStateCash).customerUpdates = [] ∧
      (handleCheckout false (fun _ => true) (some "u1") "t0"
          sampleStateCash).stockWrites = []) :=
  ⟨by decide,
    C3_offline_checkout_queues (fun _ => true) "u1" "t0" sampleStateCash
      (by decide) (by decide)⟩

/-- C4: an online checkout whose k-th sale insert is rejected (all earlier
inserts succeeding) reports failure with the single error toast; the rows
for the lines before k are persisted with synced = true, and no sale row at
or after line k is written; the checkout state is left as it was. -/
theorem C4_online_partial_failure (insertOk : Nat → Bool) (uid : String) (ts : String)
    (st : CheckoutState) (k : Nat) (hcart : st.cart ≠ [])
    (hval : ¬(st.paymentMethod = PaymentMethod.debt ∧ st.selectedCustomerId = none))
    (hk : k < st.cart.length) (hpre : ∀ j, j < k → insertOk j = true)
    (hfail : insertOk k = false) :
    (handleCheckout true insertOk (some uid) ts st).outcome = CheckoutOutcome.failed ∧
    (handleCheckout true insertOk (some uid) ts st).remoteSales =
      (st.cart.take k).map (fun item => mkSaleData uid item st.selectedCustomerId
        (lookupCustomer st.customers st.selectedCustomerId) st.paymentMethod ts true) ∧
    (handleCheckout true insertOk (some uid) ts st).remoteSales.length = k ∧
    (∀ s ∈ (handleCheckout true insertOk (some uid) ts st).remoteSales,
      s.synced = true) ∧
    (handleCheckout true insertOk (some uid) ts st).toasts = [checkoutErrorToast] ∧
    (handleCheckout true insertOk (some uid) ts st).state = st := by
  obtain ⟨hsw, hok⟩ := processOnlineLoop_fail uid st.selectedCustomerId
    (lookupCustomer st.customers st.selectedCustomerId) st.paymentMethod ts st.cart
    insertOk k hk hpre hfail
  have hred : handleCheckout true insertOk (some uid) ts st =
      { outcome := CheckoutOutcome.failed, state := st,
        remoteSales := (processOnlineLoop insertOk uid st.selectedCustomerId
          (lookupCustomer st.customers st.selectedCustomerId) st.paymentMethod ts
          st.cart).salesWritten,
        customerUpdates := (processOnlineLoop insertOk uid st.selectedCustomerId
          (lookupCustomer st.customers st.selectedCustomerId) st.paymentMethod ts
          st.cart).customerUpdates,
        stockWrites := (processOnlineLoop insertOk uid st.selectedCustomerId
          (lookupCustomer st.customers st.selectedCustomerId) st.paymentMethod ts
          st.cart).stockWrites,
        salesCreated := (processOnlineLoop insertOk uid st.selectedCustomerId
          (lookupCustomer st.customers st.selectedCustomerId) st.paymentMethod ts
          st.cart).salesWritten,
        toasts := [checkoutErrorToast] } := by
    simp [handleCheckout, hcart, hval, hok]
  rw [hred]
  refine ⟨rfl, hsw, ?_, ?_, rfl, rfl⟩
  · rw [hsw, List.length_map, List.length_take]
    exact Nat.min_eq_left (Nat.le_of_lt hk)
  · rw [hsw]
    intro s hs
    obtain ⟨x, -, rfl⟩ := List.mem_map.mp hs
    rfl

/-- Witness for C4 at a concrete two-line cash cart whose second insert is
rejected. -/
theorem C4_witness :
    sampleStateCash.cart ≠ [] ∧ 1 < sampleStateCash.cart.length ∧
    ((handleCheckout true (fun n => n == 0) (some "u1") "t0" sampleStateCash).outcome =
        CheckoutOutcome.failed ∧
      (handleCheckout true (fun n => n == 0) (some "u1") "t0" sampleStateCash).remoteSales =
        (sampleStateCash.cart.take 1).map (fun item => mkSaleData "u1" item
          sampleStateCash.selectedCustomerId
          (lookupCustomer sampleStateCash.customers sampleStateCash.selectedCustomerId)
          sampleStateCash.paymentMethod "t0" true) ∧
      (handleCheckout true (fun n => n == 0) (some "u1") "t0"
          sampleStateCash).remoteSales.length = 1 ∧
      (∀ s ∈ (handleCheckout true (fun n => n == 0) (some "u1") "t0"
          sampleStateCash).remoteSales, s.synced = true) ∧
      (handleCheckout true (fun n => n == 0) (some "u1") "t0" sampleStateCash).toasts =
        [checkoutErrorToast] ∧
      (handleCheckout true (fun n => n == 0) (some "u1") "t0" sampleStateCash).state =
        sampleStateCash) :=
  ⟨by decide, by decide,
    C4_online_partial_failure (fun n => n == 0) "u1" "t0" sampleStateCash 1
      (by decide) (by decide) (by decide) (by decide) (by decide)⟩

theorem debtUpdateFor_eq_nil (customer : Option Customer) (pm : PaymentMethod)
    (ts : String) (h : pm ≠ PaymentMethod.debt ∨ customer = none) :
    ∀ item, debtUpdateFor customer pm item ts = [] := by
  intro item
  cases customer with
  | none => rfl
  | some c =>
    rcases h with h | h
    · simp [debtUpdateFor, h]
    · exact absurd h (by simp)

theorem processOnlineLoop_updates_nil (userId : String) (customerId : Option String)
    (customer : Option Customer) (pm : PaymentMethod) (ts : String)
    (hnil : ∀ item, debtUpdateFor customer pm item ts = []) :
    ∀ (cart : List CartItem) (insertOk : Nat → Bool),
      (processOnlineLoop insertOk userId customerId customer pm ts cart).customerUpdates = []
  | [], _ => rfl
  | item :: rest, insertOk => by
    by_cases h0 : insertOk 0 = true
    · simp only [processOnlineLoop, h0, if_true]
      simp [hnil item,
        processOnlineLoop_updates_nil userId customerId customer pm ts hnil rest
          (fun n => insertOk (n + 1))]
    · simp [processOnlineLoop, h0]

theorem processOnlineLoop_ok_updates (userId : String) (customerId : Option String)
    (c : Customer) (ts : String) :
    ∀ (cart : List CartItem) (insertOk : Nat → Bool),
      (processOnlineLoop insertOk userId customerId (some c) PaymentMethod.debt ts
        cart).ok = true →
      (processOnlineLoop insertOk userId customerId (some c) PaymentMethod.debt ts
        cart).customerUpdates = cart.map (fun item => debtUpdate c item ts)
  | [], _, _ => rfl
  | item :: rest, insertOk, h => by
    by_cases h0 : insertOk 0 = true
    · simp only [processOnlineLoop, h0, if_true, List.map_cons] at h ⊢
      simp [debtUpdateFor,
        processOnlineLoop_ok_updates userId customerId c ts rest
          (fun n => insertOk (n + 1)) h]
    · simp [processOnlineLoop, h0] at h

/-- C7 (amended): customer updates are issued only on the online path for a
debt sale with a found customer — none for cash/mpesa, none when the
customer lookup fails, none offline; a completed online debt checkout
issues one update per cart line, each computed from the customer snapshot
captured at the start of checkout (outstandingDebt and totalPurchases are
set to the snapshot value plus that single line's total, so later lines
overwrite the increments of earlier lines instead of accumulating), with
lastPurchaseDate set to the checkout timestamp. -/
theorem C7_customer_updates (isOnline : Bool) (insertOk : Nat → Bool)
    (userId : Option String) (uid ts : String) (st : CheckoutState) (c : Customer) :
    (st.paymentMethod ≠ PaymentMethod.debt →
      (handleCheckout isOnline insertOk userId ts st).customerUpdates = []) ∧
    (lookupCustomer st.customers st.selectedCustomerId = none →
      (handleCheckout isOnline insertOk userId ts st).customerUpdates = []) ∧
    ((handleCheckout false insertOk userId ts st).customerUpdates = []) ∧
    (st.paymentMethod = PaymentMethod.debt →
      lookupCustomer st.customers st.selectedCustomerId = some c →
      (handleCheckout true insertOk (some uid) ts st).outcome =
        CheckoutOutcome.completed →
      (handleCheckout true insertOk (some uid) ts st).customerUpdates =
        st.cart.map (fun item => debtUpdate c item ts)) := by
  refine ⟨?_, ?_, ?_, ?_⟩
  · intro hpm
    by_cases h1 : st.cart = []
    · simp [handleCheckout, h1]
    have h2 : ¬(st.paymentMethod = PaymentMethod.debt ∧ st.selectedCustomerId = none) :=
      fun h => hpm h.1
    cases userId with
    | none => simp [handleCheckout, h1, h2]
    | some uid' =>
      cases isOnline with
      | false => simp [handleCheckout, h1, h2]
      | true =>
        have hnil := debtUpdateFor_eq_nil
          (lookupCustomer st.customers st.selectedCustomerId) st.paymentMethod ts
          (Or.inl hpm)
        by_cases hok : (processOnlineLoop insertOk uid' st.selectedCustomerId
            (lookupCustomer st.customers st.selectedCustomerId) st.paymentMethod ts
            st.cart).ok = true
        · simp [handleCheckout, h1, h2, hok,
            processOnlineLoop_updates_nil uid' st.selectedCustomerId _ _ ts hnil st.cart
              insertOk]
        · simp [handleCheckout, h1, h2, hok,
            processOnlineLoop_updates_nil uid' st.selectedCustomerId _ _ ts hnil st.cart
              insertOk]
  · intro hcust
    by_cases h1 : st.cart = []
    · simp [handleCheckout, h1]
    by_cases h2 : st.paymentMethod = PaymentMethod.debt ∧ st.selectedCustomerId = none
    · simp [handleCheckout, h1, h2]
    cases userId with
    | none => simp [handleCheckout, h1, h2]
    | some uid' =>
      cases isOnline with
      | false => simp [handleCheckout, h1, h2]
      | true =>
        have hnil := debtUpdateFor_eq_nil
          (lookupCustomer st.customers st.selectedCustomerId) st.paymentMethod ts
          (Or.inr hcust)
        by_cases hok : (processOnlineLoop insertOk uid' st.selectedCustomerId
            (lookupCustomer st.customers st.selectedCustomerId) st.paymentMethod ts
            st.cart).ok = true
        · simp [handleCheckout, h1, h2, hok,
            processOnlineLoop_updates_nil uid' st.selectedCustomerId _ _ ts hnil st.cart
              insertOk]
        · simp [handleCheckout, h1, h2, hok,
            processOnlineLoop_updates_nil uid' st.selectedCustomerId _ _ ts hnil st.cart
              insertOk]
  · by_cases h1 : st.cart = []
    · simp [handleCheckout, h1]
    by_cases h2 : st.paymentMethod = PaymentMethod.debt ∧ st.selectedCustomerId = none
    · simp [handleCheckout, h1, h2]
    cases userId with
    | none => simp [handleCheckout, h1, h2]
    | some uid' => simp [handleCheckout, h1, h2]
  · intro hpm hcust hdone
    by_cases h1 : st.cart = []
    · simp [handleCheckout, h1] at hdone
    have h3 : ¬ st.selectedCustomerId = none := by
      intro hnone
      rw [hnone] at hcust
      simp [lookupCustomer] at hcust
    have h2 : ¬(st.paymentMethod = PaymentMethod.debt ∧ st.selectedCustomerId = none) :=
      fun h => h3 h.2
    by_cases hok : (processOnlineLoop insertOk uid st.selectedCustomerId
        (lookupCustomer st.customers st.selectedCustomerId) st.paymentMethod ts
        st.cart).ok = true
    · have := processOnlineLoop_ok_updates uid st.selectedCustomerId c ts st.cart insertOk
      rw [hpm, hcust] at hok
      simp [handleCheckout, h1, h2, h3, hpm, hcust, hok, this hok]
    · simp [handleCheckout, h1, h2, hok] at hdone

/-- Witness for C7 at a concrete completed online debt checkout. -/
theorem C7_witness :
    sampleStateDebt.paymentMethod = PaymentMethod.debt ∧
    lookupCustomer sampleStateDebt.customers sampleStateDebt.selectedCustomerId =
      some sampleCustomer ∧
    (handleCheckout true (fun _ => true) (some "u1") "t0" sampleStateDebt).outcome =
      CheckoutOutcome.completed ∧
    (handleCheckout true (fun _ => true) (some "u1") "t0"
        sampleStateDebt).customerUpdates =
      sampleStateDebt.cart.map (fun item => debtUpdate sampleCustomer item "t0") :=
  ⟨by decide, by decide, by decide,
    (C7_customer_updates true (fun _ => true) (some "u1") "u1" "t0" sampleStateDebt
        sampleCustomer).2.2.2 (by decide) (by decide) (by decide)⟩

/-- C7 counterexample: checking out the concrete two-line debt cart
(line totals 200 and 200) issues two updates both computed from the original
snapshot, so applying them leaves outstandingDebt at 200 — the last line's
total — while updates that each increased the field by their line total
would have left it at 400. -/
theorem C7_counterexample :
    (applyCustomerUpdates sampleCustomer
      (handleCheckout true (fun _ => true) (some "u1") "t0"
        sampleStateDebt).customerUpdates).outstandingDebt = 200 ∧
    sampleCustomer.outstandingDebt +
      (sampleItem1.sellingPrice * sampleItem1.quantity +
        sampleItem2.sellingPrice * sampleItem2.quantity) = 400 ∧
    (200 : Int) ≠ 400 := by decide

theorem processOnlineLoop_stockWrites (userId : String) (customerId : Option String)
    (customer : Option Customer) (pm : PaymentMethod) (ts : String) :
    ∀ (cart : List CartItem) (insertOk : Nat → Bool) (w : String × Int),
      w ∈ (processOnlineLoop insertOk userId customerId customer pm ts cart).stockWrites →
      ∃ item, item ∈ cart ∧
        w = (item.id, stockDecrement item.currentStock item.quantity)
  | [], _, w, hw => absurd hw (by simp [processOnlineLoop])
  | item :: rest, insertOk, w, hw => by
    by_cases h0 : insertOk 0 = true
    · simp only [processOnlineLoop, h0, if_true, List.mem_cons] at hw
      rcases hw with rfl | hw
      · exact ⟨item, List.mem_cons_self item rest, rfl⟩
      · obtain ⟨x, hx, rfl⟩ := processOnlineLoop_stockWrites userId customerId customer
          pm ts rest (fun n => insertOk (n + 1)) w hw
        exact ⟨x, List.mem_cons_of_mem item hx, rfl⟩
    · simp [processOnlineLoop, h0] at hw

/-- C8: every stock write issued by a checkout is the per-line decrement
`max(0, currentStock - quantity)` of some cart line, and its value is never
negative. -/
theorem C8_stock_never_negative (isOnline : Bool) (insertOk : Nat → Bool)
    (userId : Option String) (ts : String) (st : CheckoutState) (w : String × Int)
    (hw : w ∈ (handleCheckout isOnline insertOk userId ts st).stockWrites) :
    ∃ item, item ∈ st.cart ∧
      w = (item.id, stockDecrement item.currentStock item.quantity) ∧
      stockDecrement item.currentStock item.quantity =
        max 0 (item.currentStock - item.quantity) ∧ 0 ≤ w.2 := by
  by_cases h1 : st.cart = []
  · simp [handleCheckout, h1] at hw
  by_cases h2 : st.paymentMethod = PaymentMethod.debt ∧ st.selectedCustomerId = none
  · simp [handleCheckout, h1, h2] at hw
  cases userId with
  | none => simp [handleCheckout, h1, h2] at hw
  | some uid =>
    cases isOnline with
    | false => simp [handleCheckout, h1, h2] at hw
    | true =>
      by_cases hok : (processOnlineLoop insertOk uid st.selectedCustomerId
          (lookupCustomer st.customers st.selectedCustomerId) st.paymentMethod ts
          st.cart).ok = true
      all_goals
        simp only [handleCheckout, h1, h2, hok, if_true, if_false, ite_true, ite_false] at hw
      all_goals
        obtain ⟨item, hx, rfl⟩ := processOnlineLoop_stockWrites uid
          st.selectedCustomerId (lookupCustomer st.customers st.selectedCustomerId)
          st.paymentMethod ts st.cart insertOk w hw
      all_goals exact ⟨item, hx, rfl, rfl, le_max_left 0 _⟩

/-- Witness for C8 at a concrete online checkout whose first stock write is
for two units off a stock of ten. -/
theorem C8_witness :
    (("p1", (8 : Int)) ∈ (handleCheckout true (fun _ => true) (some "u1") "t0"
      sampleStateCash).stockWrites) ∧
    (∃ item, item ∈ sampleStateCash.cart ∧
      ("p1", (8 : Int)) = (item.id, stockDecrement item.currentStock item.quantity) ∧
      stockDecrement item.currentStock item.quantity =
        max 0 (item.currentStock - item.quantity) ∧ (0 : Int) ≤ ("p1", (8 : Int)).2) :=
  ⟨by decide,
    C8_stock_never_negative true (fun _ => true) (some "u1") "t0" sampleStateCash
      ("p1", 8) (by decide)⟩

/-- C9 counterexample: the out-of-stock product is already in the cart and
the user declines the confirmation dialog; addToCart returns the cart
unchanged instead of incrementing the matching line's quantity. -/
theorem C9_counterexample :
    addToCart false [{ toProduct := sampleProductOut, quantity := 1 }] sampleProductOut =
      [{ toProduct := sampleProductOut, quantity := 1 }] ∧
    addToCart false [{ toProduct := sampleProductOut, quantity := 1 }] sampleProductOut ≠
      [{ toProduct := sampleProductOut, quantity := 2 }] := by decide

/-- C9 (amended): except when the product is out of stock and the user
declines the confirmation dialog (the cart is then returned unchanged, with
no duplicate created either), addToCart on a product already in the cart
bumps exactly that line's quantity by one and appends nothing, addToCart on
a new product appends one line with quantity 1, and updateQuantity with a
quantity of at most 0 removes the line entirely; all operations preserve
the invariant that cart product ids are pairwise distinct and every line
has positive quantity. -/
theorem C9_cart_invariant (cart : List CartItem) (p : Product) (confirmAdd : Bool)
    (pid : String) (q : Int) (hinv : CartInv cart) :
    CartInv (addToCart confirmAdd cart p) ∧
    ((p.currentStock ≠ 0 ∨ confirmAdd = true) →
      ((p.id ∈ cart.map (fun it => it.id)) →
        (addToCart confirmAdd cart p).length = cart.length ∧
        ∀ pr ∈ (addToCart confirmAdd cart p).zip cart,
          pr.1.id = pr.2.id ∧
          (pr.2.id = p.id →
            pr.1.quantity = pr.2.quantity + 1 ∧ pr.1.toProduct = pr.2.toProduct) ∧
          (pr.2.id ≠ p.id → pr.1 = pr.2)) ∧
      ((p.id ∉ cart.map (fun it => it.id)) →
        addToCart confirmAdd cart p = cart ++ [{ toProduct := p, quantity := 1 }])) ∧
    (q ≤ 0 →
      (∀ it ∈ updateQuantity cart pid q, it.id ≠ pid ∧ it ∈ cart) ∧
      (∀ it ∈ cart, it.id ≠ pid → it ∈ updateQuantity cart pid q)) ∧
    CartInv (updateQuantity cart pid q) := by
  obtain ⟨hnodup, hpos⟩ := hinv
  refine ⟨?_, ?_, ?_, ?_⟩
  · by_cases hc : p.currentStock = 0 ∧ confirmAdd = false
    · unfold addToCart
      rw [if_pos hc]
      exact ⟨hnodup, hpos⟩
    · unfold addToCart
      rw [if_neg hc]
      cases hfind : cart.find? (fun item => item.id == p.id) with
      | some it =>
        constructor
        · rw [List.map_map]
          have hids : cart.map ((fun it => it.id) ∘ (fun item =>
              if item.id = p.id then { item with quantity := item.quantity + 1 }
              else item)) = cart.map (fun it => it.id) :=
            List.map_congr_left (fun x hx => by
              by_cases hxp : x.id = p.id <;> simp [hxp])
          rw [hids]
          exact hnodup
        · intro it' hit'
          obtain ⟨x, hx, rfl⟩ := List.mem_map.mp hit'
          by_cases hxp : x.id = p.id
          · rw [if_pos hxp]
            have := hpos x hx
            show 0 < x.quantity + 1
            omega
          · rw [if_neg hxp]
            exact hpos x hx
      | none =>
        have hfresh : ∀ x ∈ cart, x.id ≠ p.id := fun x hx => by
          simpa using List.find?_eq_none.mp hfind x hx
        constructor
        · simp only [List.map_append, List.map_cons, List.map_nil,
            List.nodup_append]
          refine ⟨hnodup, List.nodup_singleton _, ?_⟩
          intro a ha hb
          obtain ⟨x, hx, rfl⟩ := List.mem_map.mp ha
          simp only [List.mem_singleton] at hb
          exact hfresh x hx hb
        · intro it' hit'
          rcases List.mem_append.mp hit' with h | h
          · exact hpos it' h
          · simp only [List.mem_singleton] at h
            rw [h]
            exact Int.zero_lt_one
  · intro hcnot
    have hc : ¬(p.currentStock = 0 ∧ confirmAdd = false) := by
      rcases hcnot with h | h
      · exact fun hand => h hand.1
      · exact fun hand => by rw [h] at hand; exact absurd hand.2 (by simp)
    constructor
    · intro hmem
      obtain ⟨x0, hx0, hx0id⟩ := by simpa using hmem
      have hres : addToCart confirmAdd cart p = cart.map (fun item =>
          if item.id = p.id then { item with quantity := item.quantity + 1 }
          else item) := by
        unfold addToCart
        rw [if_neg hc]
        cases hfind : cart.find? (fun item => item.id == p.id) with
        | some it => rfl
        | none =>
          have := List.find?_eq_none.mp hfind x0 hx0
          simp [hx0id] at this
      rw [hres]
      refine ⟨List.length_map _ _, ?_⟩
      rw [zipMapSelf]
      intro pr hpr
      obtain ⟨x, hx, rfl⟩ := List.mem_map.mp hpr
      refine ⟨?_, ?_, ?_⟩
      · by_cases hxp : x.id = p.id <;> simp [hxp]
      · intro hxp
        rw [if_pos hxp]
        exact ⟨rfl, rfl⟩
      · intro hxp
        rw [if_neg hxp]
    · intro hnot
      have hfind : cart.find? (fun item => item.id == p.id) = none :=
        List.find?_eq_none.mpr (fun x hx => by
          simp only [beq_iff_eq]
          intro hxp
          exact hnot (List.mem_map.mpr ⟨x, hx, hxp⟩))
      unfold addToCart
      rw [if_neg hc, hfind]
  · intro hq
    unfold updateQuantity
    rw [if_pos hq]
    unfold removeFromCart
    constructor
    · intro it hit
      have := List.mem_filter.mp hit
      refine ⟨?_, this.1⟩
      simpa using this.2
    · intro it hit hne
      exact List.mem_filter.mpr ⟨hit, by simpa using hne⟩
  · by_cases hq : q ≤ 0
    · unfold updateQuantity
      rw [if_pos hq]
      unfold removeFromCart
      constructor
      · exact List.Nodup.sublist
          (List.Sublist.map _ (List.filter_sublist cart)) hnodup
      · intro it hit
        exact hpos it (List.mem_filter.mp hit).1
    · unfold updateQuantity
      rw [if_neg hq]
      constructor
      · rw [List.map_map]
        have hids : cart.map ((fun it => it.id) ∘ (fun item =>
            if item.id = pid then { item with quantity := q } else item)) =
            cart.map (fun it => it.id) :=
          List.map_congr_left (fun x hx => by
            by_cases hxp : x.id = pid <;> simp [hxp])
        rw [hids]
        exact hnodup
      · intro it hit
        obtain ⟨x, hx, rfl⟩ := List.mem_map.mp hit
        by_cases hxp : x.id = pid
        · rw [if_pos hxp]
          show 0 < q
          omega
        · rw [if_neg hxp]
          exact hpos x hx

/-- Witness for C9: a concrete singleton cart satisfies the invariant and
addToCart preserves it. -/
theorem C9_witness :
    CartInv [sampleItem1] ∧
    CartInv (addToCart true [sampleItem1] sampleProduct1) :=
  ⟨by unfold CartInv; decide,
    (C9_cart_invariant [sampleItem1] sampleProduct1 true "p1" 0
      (by unfold CartInv; decide)).1⟩

theorem applyFilters_nil : ∀ filters : List (String × Option Int),
    applyFilters filters [] = []
  | [] => rfl
  | kv :: fs => by
    cases hv : kv.2 with
    | none =>
      have hstep : applyFilters (kv :: fs) [] = applyFilters fs [] := by
        simp [applyFilters, hv]
      rw [hstep, applyFilters_nil fs]
    | some v =>
      have hstep : applyFilters (kv :: fs) [] = applyFilters fs [] := by
        simp [applyFilters, hv]
      rw [hstep, applyFilters_nil fs]

theorem mem_applyFilters (filters : List (String × Option Int)) :
    ∀ (rows : List Row) (r : Row),
      r ∈ applyFilters filters rows ↔
        (r ∈ rows ∧ ∀ kv ∈ filters, ∀ v, kv.2 = some v →
          rowMatches r kv.1 v = true) := by
  induction filters with
  | nil =>
    intro rows r
    simp [applyFilters]
  | cons kv fs ih =>
    intro rows r
    cases hv : kv.2 with
    | none =>
      have hstep : applyFilters (kv :: fs) rows = applyFilters fs rows := by
        simp [applyFilters, hv]
      rw [hstep, ih, List.forall_mem_cons]
      simp [hv]
    | some v =>
      have hstep : applyFilters (kv :: fs) rows =
          applyFilters fs (rows.filter (fun r => rowMatches r kv.1 v)) := by
        simp [applyFilters, hv]
      rw [hstep, ih, List.forall_mem_cons]
      simp only [List.mem_filter, hv, Option.some.injEq]
      constructor
      · rintro ⟨⟨hr, hm⟩, hrest⟩
        exact ⟨hr, fun v' hv' => hv' ▸ hm, hrest⟩
      · rintro ⟨hr, hhead, hrest⟩
        exact ⟨⟨hr, hhead v rfl⟩, hrest⟩

/-- C6: an offline read attempts no network query; with a cached snapshot it
returns exactly the cached rows satisfying every equality filter whose value
is neither undefined nor null (null/undefined filter values are ignored) and
surfaces no error; a cache miss yields the empty sequence and no error. -/
theorem C6_offline_read (env : ReaderEnv) (filters : List (String × Option Int))
    (prev : List Row) (hoff : env.isOnline = false) :
    (fetchData env filters prev).networkAttempted = false ∧
    (∀ rows, env.cache = Except.ok (some rows) →
      (fetchData env filters prev).error = none ∧
      (fetchData env filters prev).data = applyFilters filters rows ∧
      ∀ r, r ∈ (fetchData env filters prev).data ↔
        (r ∈ rows ∧ ∀ kv ∈ filters, ∀ v, kv.2 = some v →
          rowMatches r kv.1 v = true)) ∧
    (env.cache = Except.ok none →
      (fetchData env filters prev).data = [] ∧
      (fetchData env filters prev).error = none) := by
  cases hc : env.cache with
  | ok copt =>
    have hred : fetchData env filters prev =
        { data := applyFilters filters (copt.getD []), error := none,
          storedCache := none, networkAttempted := false } := by
      simp [fetchData, hoff, hc]
    rw [hred]
    refine ⟨rfl, ?_, ?_⟩
    · intro rows hrows
      injection hrows with h
      subst h
      exact ⟨rfl, rfl, fun r => mem_applyFilters filters rows r⟩
    · intro hnone
      injection hnone with h
      subst h
      exact ⟨applyFilters_nil filters, rfl⟩
  | error e =>
    have hred : fetchData env filters prev = fetchFallback env e prev false := by
      simp [fetchData, hoff, hc]
    rw [hred]
    refine ⟨?_, ?_, ?_⟩
    · simp [fetchFallback, hc]
    · intro rows hrows
      simp at hrows
    · intro hnone
      simp at hnone

/-- Witness for C6 at a concrete offline environment with a populated cache:
no network attempt, and the data is the filtered snapshot. -/
theorem C6_witness :
    sampleReaderEnvOffline.isOnline = false ∧
    (fetchData sampleReaderEnvOffline sampleFilters []).networkAttempted = false ∧
    (fetchData sampleReaderEnvOffline sampleFilters []).data =
      applyFilters sampleFilters sampleCacheRows :=
  ⟨rfl, (C6_offline_read sampleReaderEnvOffline sampleFilters [] rfl).1,
    ((C6_offline_read sampleReaderEnvOffline sampleFilters [] rfl).2.1
      sampleCacheRows rfl).2.1⟩

/-- C5 (amended): when online and the remote query fails, fetchData never
throws past its boundary: it surfaces the error message and falls back to
the cached snapshot WITHOUT re-applying the filters (the raw cached rows are
returned); when the cache misses or the cache read itself fails, the
previous data is kept; nothing is written to the cache. -/
theorem C5_remote_failure_fallback (env : ReaderEnv)
    (filters : List (String × Option Int)) (prev : List Row) (e : String)
    (hon : env.isOnline = true) (hrem : env.remote = Except.error e) :
    (fetchData env filters prev).error = some e ∧
    (fetchData env filters prev).storedCache = none ∧
    (fetchData env filters prev).networkAttempted = true ∧
    (∀ rows, env.cache = Except.ok (some rows) →
      (fetchData env filters prev).data = rows) ∧
    (env.cache = Except.ok none → (fetchData env filters prev).data = prev) ∧
    (∀ e2, env.cache = Except.error e2 → (fetchData env filters prev).data = prev) := by
  have hred : fetchData env filters prev = fetchFallback env e prev true := by
    simp [fetchData, hon, hrem]
  rw [hred]
  cases hc : env.cache with
  | ok copt =>
    cases copt with
    | some rows =>
      refine ⟨by simp [fetchFallback, hc], by simp [fetchFallback, hc],
        by simp [fetchFallback, hc], ?_, ?_, ?_⟩
      · intro rows' hrows'
        injection hrows' with h
        injection h with h2
        subst h2
        simp [fetchFallback, hc]
      · intro hnone
        simp at hnone
      · intro e2 he2
        simp at he2
    | none =>
      refine ⟨by simp [fetchFallback, hc], by simp [fetchFallback, hc],
        by simp [fetchFallback, hc], ?_, ?_, ?_⟩
      · intro rows' hrows'
        simp at hrows'
      · intro hnone
        simp [fetchFallback, hc]
      · intro e2 he2
        simp at he2
  | error e2 =>
    refine ⟨by simp [fetchFallback, hc], by simp [fetchFallback, hc],
      by simp [fetchFallback, hc], ?_, ?_, ?_⟩
    · intro rows' hrows'
      simp at hrows'
    · intro hnone
      simp at hnone
    · intro e3 he3
      simp [fetchFallback, hc]

/-- Witness for C5 at a concrete online environment with a failing remote
query and a populated cache. -/
theorem C5_witness :
    sampleReaderEnvFail.isOnline = true ∧
    sampleReaderEnvFail.remote = Except.error "boom" ∧
    (fetchData sampleReaderEnvFail sampleFilters []).error = some "boom" ∧
    (fetchData sampleReaderEnvFail sampleFilters []).data = [sampleRowNoMatch] :=
  ⟨rfl, rfl,
    (C5_remote_failure_fallback sampleReaderEnvFail sampleFilters [] "boom" rfl rfl).1,
    ((C5_remote_failure_fallback sampleReaderEnvFail sampleFilters [] "boom"
      rfl rfl).2.2.2.1 [sampleRowNoMatch] rfl)⟩

/-- C5 counterexample: online with the remote query failing, the fallback
returns the raw cached row even though it does not satisfy the filters, so
the result differs from the filtered cache read the claim demands. -/
theorem C5_counterexample :
    (fetchData sampleReaderEnvFail sampleFilters []).data = [sampleRowNoMatch] ∧
    applyFilters sampleFilters [sampleRowNoMatch] = [] ∧
    (fetchData sampleReaderEnvFail sampleFilters []).data ≠
      applyFilters sampleFilters [sampleRowNoMatch] := by decide

theorem mapSet_keys_of_mem (m : List (Nat × Int)) (k : Nat) (v : Int)
    (h : (m.any (fun p => p.1 == k)) = true) :
    (mapSet m k v).map (fun p => p.1) = m.map (fun p => p.1) := by
  unfold mapSet
  rw [if_pos h, List.map_map]
  exact List.map_congr_left (fun p hp => by
    by_cases hk : p.1 = k <;> simp [hk])

theorem mapSet_keys_of_not_mem (m : List (Nat × Int)) (k : Nat) (v : Int)
    (h : (m.any (fun p => p.1 == k)) = false) :
    (mapSet m k v).map (fun p => p.1) = m.map (fun p => p.1) ++ [k] := by
  unfold mapSet
  rw [if_neg (by simp [h]), List.map_append]
  rfl

theorem keysNodup_mapSet (m : List (Nat × Int)) (k : Nat) (v : Int)
    (h : keysNodup m) : keysNodup (mapSet m k v) := by
  unfold keysNodup at h ⊢
  by_cases hmem : (m.any (fun p => p.1 == k)) = true
  · rw [mapSet_keys_of_mem m k v hmem]
    exact h
  · have hmem' : (m.any (fun p => p.1 == k)) = false := by
      cases hval : m.any (fun p => p.1 == k) with
      | false => rfl
      | true => exact absurd hval hmem
    rw [mapSet_keys_of_not_mem m k v hmem']
    have hfresh : k ∉ m.map (fun p => p.1) := by
      intro hkmem
      obtain ⟨p, hp, hpk⟩ := List.mem_map.mp hkmem
      have hany : (m.any (fun q => q.1 == k)) = true :=
        List.any_eq_true.mpr ⟨p, hp, by simp [hpk]⟩
      rw [hmem'] at hany
      cases hany
    rw [List.nodup_append]
    refine ⟨h, List.nodup_singleton k, ?_⟩
    intro a ha hb
    simp only [List.mem_singleton] at hb
    subst hb
    exact hfresh ha

theorem mapSet_values_subset (m : List (Nat × Int)) (k : Nat) (v x : Int)
    (hx : x ∈ (mapSet m k v).map (fun p => p.2)) :
    x ∈ m.map (fun p => p.2) ∨ x = v := by
  unfold mapSet at hx
  by_cases hmem : (m.any (fun p => p.1 == k)) = true
  · rw [if_pos hmem, List.map_map] at hx
    obtain ⟨p, hp, hpe⟩ := List.mem_map.mp hx
    by_cases hk : p.1 = k
    · right
      simp only [Function.comp, hk, if_true, ite_true] at hpe
      exact hpe.symm
    · left
      refine List.mem_map.mpr ⟨p, hp, ?_⟩
      simpa [Function.comp, hk] using hpe
  · rw [if_neg (by simpa using hmem), List.map_append] at hx
    rcases List.mem_append.mp hx with h | h
    · left
      exact h
    · right
      simpa using h

theorem mapGetD_nonneg (m : List (Nat × Int)) (k : Nat)
    (h : ∀ x ∈ m.map (fun p => p.2), 0 ≤ x) : 0 ≤ mapGetD m k := by
  unfold mapGetD
  cases hf : m.find? (fun p => p.1 == k) with
  | none => exact le_refl 0
  | some p => exact h p.2 (List.mem_map.mpr ⟨p, List.mem_of_find?_eq_some hf, rfl⟩)

theorem mapSet_cons_ne (p : Nat × Int) (m : List (Nat × Int)) (k : Nat) (v : Int)
    (h : p.1 ≠ k) : mapSet (p :: m) k v = p :: mapSet m k v := by
  unfold mapSet
  have hp : (p.1 == k) = false := by simpa using h
  by_cases hmem : (m.any (fun q => q.1 == k)) = true
  · rw [if_pos (by simp [List.any_cons, hp, hmem]), if_pos hmem]
    simp [h]
  · rw [if_neg (by simp [List.any_cons, hp, hmem]), if_neg hmem]
    rfl

theorem mapGetD_cons_ne (p : Nat × Int) (m : List (Nat × Int)) (k : Nat)
    (h : p.1 ≠ k) : mapGetD (p :: m) k = mapGetD m k := by
  unfold mapGetD
  rw [List.find?_cons_of_neg m (by simpa using h)]

theorem mapSum_chartEntryAdd : ∀ (m : List (Nat × Int)), keysNodup m → ∀ (k : Nat) (c : Int),
    mapSum (chartEntryAdd m k c) = mapSum m + c
  | [], _, k, c => by
    show mapSum (mapSet [] k (mapGetD [] k + c)) = mapSum [] + c
    unfold mapSet mapGetD mapSum
    simp
  | p :: m, hnd, k, c => by
    have hndm : keysNodup m := by
      unfold keysNodup at hnd ⊢
      simp only [List.map_cons, List.nodup_cons] at hnd
      exact hnd.2
    by_cases hk : p.1 = k
    · subst hk
      have hfresh : ∀ q ∈ m, q.1 ≠ p.1 := by
        unfold keysNodup at hnd
        simp only [List.map_cons, List.nodup_cons] at hnd
        intro q hq hqe
        exact hnd.1 (List.mem_map.mpr ⟨q, hq, hqe⟩)
      have hgd : mapGetD (p :: m) p.1 = p.2 := by
        unfold mapGetD
        rw [List.find?_cons_of_pos m (by simp)]
      have hset : mapSet (p :: m) p.1 (p.2 + c) = (p.1, p.2 + c) :: m := by
        unfold mapSet
        rw [if_pos (by simp [List.any_cons])]
        simp only [List.map_cons, if_pos rfl]
        congr 1
        exact List.map_congr_left (fun q hq => by
          rw [if_neg (hfresh q hq)]
          rfl) |>.trans (List.map_id m)
      show mapSum (mapSet (p :: m) p.1 (mapGetD (p :: m) p.1 + c)) = mapSum (p :: m) + c
      rw [hgd, hset]
      unfold mapSum
      simp [add_assoc, add_comm, add_left_comm]
    · show mapSum (mapSet (p :: m) k (mapGetD (p :: m) k + c)) = mapSum (p :: m) + c
      rw [mapGetD_cons_ne p m k hk, mapSet_cons_ne p m k _ hk]
      have ih := mapSum_chartEntryAdd m hndm k c
      unfold chartEntryAdd at ih
      unfold mapSum at ih ⊢
      simp only [List.map_cons, List.sum_cons]
      rw [ih]
      ring

theorem keysNodup_chartEntryAdd (m : List (Nat × Int)) (k : Nat) (c : Int)
    (h : keysNodup m) : keysNodup (chartEntryAdd m k c) :=
  keysNodup_mapSet m k _ h

theorem fillSales_keysNodup (keyOf : Sale → Nat) (inRange : Sale → Bool) :
    ∀ (sales : List Sale) (m : List (Nat × Int)), keysNodup m →
      keysNodup (fillSales keyOf inRange m sales)
  | [], m, h => h
  | s :: rest, m, h => by
    have hstep : fillSales keyOf inRange m (s :: rest) =
        fillSales keyOf inRange
          (if inRange s then chartEntryAdd m (keyOf s) (saleContribution s) else m)
          rest := rfl
    rw [hstep]
    by_cases hr : inRange s = true
    · rw [if_pos hr]
      exact fillSales_keysNodup keyOf inRange rest _
        (keysNodup_chartEntryAdd m (keyOf s) (saleContribution s) h)
    · rw [if_neg hr]
      exact fillSales_keysNodup keyOf inRange rest m h

theorem fillSales_mapSum (keyOf : Sale → Nat) (inRange : Sale → Bool) :
    ∀ (sales : List Sale) (m : List (Nat × Int)), keysNodup m →
      mapSum (fillSales keyOf inRange m sales) = mapSum m + inRangeSum inRange sales
  | [], m, _ => by
    unfold fillSales inRangeSum
    simp
  | s :: rest, m, hnd => by
    have hstep : fillSales keyOf inRange m (s :: rest) =
        fillSales keyOf inRange
          (if inRange s then chartEntryAdd m (keyOf s) (saleContribution s) else m)
          rest := rfl
    rw [hstep]
    by_cases hr : inRange s = true
    · rw [if_pos hr]
      rw [fillSales_mapSum keyOf inRange rest _
        (keysNodup_chartEntryAdd m (keyOf s) (saleContribution s) hnd)]
      rw [mapSum_chartEntryAdd m hnd (keyOf s) (saleContribution s)]
      have hfil : inRangeSum inRange (s :: rest) =
          saleContribution s + inRangeSum inRange rest := by
        unfold inRangeSum
        rw [List.filter_cons, if_pos hr]
        simp
      rw [hfil]
      ring
    · rw [if_neg hr]
      rw [fillSales_mapSum keyOf inRange rest m hnd]
      have hfil : inRangeSum inRange (s :: rest) = inRangeSum inRange rest := by
        unfold inRangeSum
        rw [List.filter_cons, if_neg hr]
      rw [hfil]

theorem fillSales_values_nonneg (keyOf : Sale → Nat) (inRange : Sale → Bool) :
    ∀ (sales : List Sale) (m : List (Nat × Int)),
      (∀ x ∈ m.map (fun p => p.2), 0 ≤ x) →
      ∀ x ∈ (fillSales keyOf inRange m sales).map (fun p => p.2), 0 ≤ x
  | [], m, h => h
  | s :: rest, m, h => by
    have hstep : fillSales keyOf inRange m (s :: rest) =
        fillSales keyOf inRange
          (if inRange s then chartEntryAdd m (keyOf s) (saleContribution s) else m)
          rest := rfl
    rw [hstep]
    by_cases hr : inRange s = true
    · rw [if_pos hr]
      refine fillSales_values_nonneg keyOf inRange rest _ ?_
      intro x hx
      rcases mapSet_values_subset m (keyOf s) _ x hx with hin | hval
      · exact h x hin
      · rw [hval]
        have h1 : 0 ≤ mapGetD m (keyOf s) := mapGetD_nonneg m (keyOf s) h
        have h2 : 0 ≤ saleContribution s := le_max_left 0 _
        omega
    · rw [if_neg hr]
      exact fillSales_values_nonneg keyOf inRange rest m h

theorem initMap_core : ∀ (keys : List Nat) (m : List (Nat × Int)),
    keysNodup m → (∀ x ∈ m.map (fun p => p.2), x = 0) →
    keysNodup (keys.foldl (fun m k => mapSet m k 0) m) ∧
    (∀ x ∈ (keys.foldl (fun m k => mapSet m k 0) m).map (fun p => p.2), x = 0)
  | [], m, hnd, hz => ⟨hnd, hz⟩
  | k :: ks, m, hnd, hz => by
    have hstep : (k :: ks).foldl (fun m k => mapSet m k 0) m =
        ks.foldl (fun m k => mapSet m k 0) (mapSet m k 0) := rfl
    rw [hstep]
    refine initMap_core ks (mapSet m k 0) (keysNodup_mapSet m k 0 hnd) ?_
    intro x hx
    rcases mapSet_values_subset m k 0 x hx with hin | hval
    · exact hz x hin
    · exact hval

theorem initMap_keysNodup (keys : List Nat) : keysNodup (initMap keys) :=
  (initMap_core keys [] (by unfold keysNodup; simp) (by simp)).1

theorem initMap_values_zero (keys : List Nat) :
    ∀ x ∈ (initMap keys).map (fun p => p.2), x = 0 :=
  (initMap_core keys [] (by unfold keysNodup; simp) (by simp)).2

theorem initMap_mapSum (keys : List Nat) : mapSum (initMap keys) = 0 :=
  List.sum_eq_zero (initMap_values_zero keys)

theorem totalRevenue_acc : ∀ (m : List (Nat × Int)) (a : Int),
    m.foldl (fun sum it => sum + it.2) a = a + mapSum m
  | [], a => by
    unfold mapSum
    simp
  | p :: m, a => by
    simp only [List.foldl_cons]
    rw [totalRevenue_acc m (a + p.2)]
    unfold mapSum
    simp [add_assoc]

theorem totalRevenue_eq_mapSum (m : List (Nat × Int)) : totalRevenue m = mapSum m := by
  unfold totalRevenue
  rw [totalRevenue_acc m 0]
  ring

theorem sortEntries_perm (m : List (Nat × Int)) : (sortEntries m).Perm m :=
  List.perm_insertionSort keyLE m

theorem sortEntries_strict (m : List (Nat × Int)) (hnd : keysNodup m) :
    List.Pairwise (fun a b : Nat × Int => a.1 < b.1) (sortEntries m) := by
  have hs : List.Pairwise keyLE (sortEntries m) := List.sorted_insertionSort keyLE m
  have hnd' : keysNodup (sortEntries m) := by
    unfold keysNodup at hnd ⊢
    exact ((sortEntries_perm m).map (fun p => p.1)).nodup_iff.mpr hnd
  have hne : List.Pairwise (fun a b : Nat × Int => a.1 ≠ b.1) (sortEntries m) := by
    unfold keysNodup at hnd'
    exact List.pairwise_map.mp hnd'
  exact (hs.and hne).imp (fun h => lt_of_le_of_ne h.1 h.2)

theorem buildChart_sorted (initKeys : List Nat) (keyOf : Sale → Nat)
    (inRange : Sale → Bool) (sales : List Sale) :
    List.Pairwise (fun a b : Nat × Int => a.1 < b.1)
      (buildChart initKeys keyOf inRange sales) :=
  sortEntries_strict _
    (fillSales_keysNodup keyOf inRange sales _ (initMap_keysNodup initKeys))

theorem buildChart_nonneg (initKeys : List Nat) (keyOf : Sale → Nat)
    (inRange : Sale → Bool) (sales : List Sale) :
    ∀ e ∈ buildChart initKeys keyOf inRange sales, 0 ≤ e.2 := by
  intro e he
  have hmem : e ∈ fillSales keyOf inRange (initMap initKeys) sales :=
    (sortEntries_perm _).mem_iff.mp he
  refine fillSales_values_nonneg keyOf inRange sales (initMap initKeys) ?_ e.2
    (List.mem_map.mpr ⟨e, hmem, rfl⟩)
  intro x hx
  rw [initMap_values_zero initKeys x hx]

theorem buildChart_total (initKeys : List Nat) (keyOf : Sale → Nat)
    (inRange : Sale → Bool) (sales : List Sale) :
    totalRevenue (buildChart initKeys keyOf inRange sales) =
      inRangeSum inRange sales := by
  rw [totalRevenue_eq_mapSum]
  have hperm : mapSum (buildChart initKeys keyOf inRange sales) =
      mapSum (fillSales keyOf inRange (initMap initKeys) sales) := by
    unfold mapSum
    exact ((sortEntries_perm _).map (fun p => p.2)).sum_eq
  rw [hperm, fillSales_mapSum keyOf inRange sales _ (initMap_keysNodup initKeys),
    initMap_mapSum]
  ring

/-- C10 (amended): for every calendar decomposition and every sale list, the
chart data of each timeframe is sorted in strictly ascending bucket-key
order and every bucket's revenue is non-negative; each in-range sale
contributes max(0, total - discount) to exactly one bucket and out-of-range
sales to none, so the displayed total revenue equals the sum of the bucket
revenues, which equals the sum of the in-range sales' contributions. -/
theorem C10_chart_properties (cal : Int → CalTime)
    (dayFloor nextDay monthFloor nextMonth : Int → Int)
    (dailyFuel monthlyFuel : Nat) (now capStartMonth endMonth : Int)
    (sales : List Sale) :
    (List.Pairwise (fun a b : Nat × Int => a.1 < b.1) (hourlyChart cal now sales) ∧
      (∀ e ∈ hourlyChart cal now sales, 0 ≤ e.2) ∧
      totalRevenue (hourlyChart cal now sales) =
        inRangeSum (fun s => decide (now - 48 * 3600000 ≤ s.timestamp)) sales) ∧
    (List.Pairwise (fun a b : Nat × Int => a.1 < b.1)
        (dailyChart cal dayFloor nextDay dailyFuel now sales) ∧
      (∀ e ∈ dailyChart cal dayFloor nextDay dailyFuel now sales, 0 ≤ e.2) ∧
      totalRevenue (dailyChart cal dayFloor nextDay dailyFuel now sales) =
        inRangeSum (fun s => decide (dailyStart dayFloor now sales ≤ s.timestamp ∧
          s.timestamp ≤ now)) sales) ∧
    (List.Pairwise (fun a b : Nat × Int => a.1 < b.1)
        (monthlyChart cal monthFloor capStartMonth endMonth nextMonth monthlyFuel
          now sales) ∧
      (∀ e ∈ monthlyChart cal monthFloor capStartMonth endMonth nextMonth monthlyFuel
          now sales, 0 ≤ e.2) ∧
      totalRevenue (monthlyChart cal monthFloor capStartMonth endMonth nextMonth
          monthlyFuel now sales) =
        inRangeSum (fun s =>
          decide (monthlyStart monthFloor capStartMonth sales ≤ s.timestamp ∧
            s.timestamp ≤ now)) sales) := by
  refine ⟨⟨?_, ?_, ?_⟩, ⟨?_, ?_, ?_⟩, ⟨?_, ?_, ?_⟩⟩
  · exact buildChart_sorted _ _ _ _
  · exact buildChart_nonneg _ _ _ _
  · exact buildChart_total _ _ _ _
  · exact buildChart_sorted _ _ _ _
  · exact buildChart_nonneg _ _ _ _
  · exact buildChart_total _ _ _ _
  · exact buildChart_sorted _ _ _ _
  · exact buildChart_nonneg _ _ _ _
  · exact buildChart_total _ _ _ _

set_option maxRecDepth 8000

/-- C10 counterexample: a sale 100 hours old is outside the hourly chart's
48-hour window, so it contributes to no bucket at all; the displayed total
is 0 while the sale's contribution is 5, refuting the claim that every sale
contributes to exactly one bucket. -/
theorem C10_counterexample :
    totalRevenue (hourlyChart cexCal (100 * 3600000) [cexSale]) = 0 ∧
    saleContribution cexSale = 5 ∧
    inRangeSum (fun _ => true) [cexSale] = 5 ∧
    (0 : Int) ≠ 5 := by decide
